import Mathlib

/-!
Shallow embedding of the art-showcase backend (two deployment variants:
a cloud object-store variant and a local-disk variant).  The relational
record store (the sqlite `artwork` table) is modelled as an in-memory
list of rows together with the auto-increment counter; object-store
outcomes (the S3 put and delete calls, whose failures the route handlers
branch on) are injected as `Except` parameters; the uuid token and the
current timestamp consumed by key generation and row insertion are
likewise injected, since they come from the environment.
-/

namespace ArtShowcase

/-- Relevant environment configuration: NODE_ENV and AUTH_TOKEN, each of
which may be unset (JavaScript `process.env` yields `undefined`). -/
structure Env where
  node_env : Option String
  auth_token : Option String
  deriving DecidableEq, Repr

/-- Object-store configuration for the cloud variant: AWS_BUCKET_NAME and
AWS_REGION. -/
structure S3Config where
  bucket : String
  region : String
  deriving DecidableEq, Repr

/-- JavaScript template-literal interpolation of a possibly-undefined
environment variable: `undefined` prints as the string "undefined". -/
def envStr : Option String → String
  | some s => s
  | none => "undefined"

/-- The checkAuth middleware: every request passes when NODE_ENV is not
"production"; otherwise the authorization header must equal the template
literal `Bearer ${AUTH_TOKEN}`.  Returns true exactly when the middleware
calls next(). -/
def checkAuth (env : Env) (authHeader : Option String) : Bool :=
  if env.node_env ≠ some "production" then true
  else authHeader = some ("Bearer " ++ envStr env.auth_token)

/-- One row of the `artwork` table: id INTEGER PRIMARY KEY AUTOINCREMENT,
title TEXT, description TEXT, filename TEXT, uploaded_at DATETIME
DEFAULT CURRENT_TIMESTAMP.  Timestamps are modelled as naturals. -/
structure Row where
  id : Nat
  title : Option String
  description : Option String
  filename : String
  uploaded_at : Nat
  deriving DecidableEq, Repr

/-- The record store: the rows of the `artwork` table in insertion order,
plus the next auto-increment id. -/
structure Store where
  rows : List Row
  nextId : Nat
  deriving DecidableEq, Repr

/-- A freshly created database: empty table, auto-increment starts at 1. -/
def emptyStore : Store := ⟨[], 1⟩

/-- The projection built by the cloud-variant GET handler for each row. -/
structure ArtworkView where
  id : Nat
  title : Option String
  description : Option String
  url : String
  uploaded_at : Nat
  deriving DecidableEq, Repr

/-- JSON response bodies the handlers produce. -/
inductive Body where
  /-- the error body `{ error: msg }` -/
  | error (msg : String)
  /-- the success body `{ success: true, id }` -/
  | okId (id : Nat)
  /-- the success body `{ success: true }` -/
  | ok
  /-- the cloud-variant listing: array of projected artworks with urls -/
  | listing (items : List ArtworkView)
  /-- the local-variant listing: the raw rows, as returned by res.json(rows) -/
  | rawRows (items : List Row)
  deriving DecidableEq, Repr

/-- An HTTP response: status code and JSON body. -/
structure Response where
  status : Nat
  body : Body
  deriving DecidableEq, Repr

/-- Express middleware composition for the gated (mutating) routes: if
checkAuth passes, the handler runs on the store; otherwise the request is
answered 403 `{error: "Unauthorized"}` and the store is untouched. -/
def gate (env : Env) (authHeader : Option String) (st : Store)
    (handler : Store → Response × Store) : Response × Store :=
  if checkAuth env authHeader then handler st
  else (⟨403, Body.error "Unauthorized"⟩, st)

/-- The multipart file part as multer presents it to the cloud-variant
handler: original filename, mime type and in-memory buffer. -/
structure UploadFile where
  originalname : String
  mimetype : String
  buffer : List UInt8
  deriving DecidableEq, Repr

/-- Cloud-variant object key generation (index.js line 76):
`${uuidv4()}-${file.originalname}`, with the uuid token injected. -/
def mkFileKey (uuid : String) (originalname : String) : String :=
  uuid ++ "-" ++ originalname

/-- Local-variant object key generation (multer diskStorage filename):
`${Date.now()}-${file.originalname}`. -/
def mkUniqueName (now : Nat) (originalname : String) : String :=
  toString now ++ "-" ++ originalname

/-- Insertion, `INSERT INTO artwork (title, description, filename) VALUES (?, ?, ?)`:
appends a row with the next auto-increment id and the current timestamp,
returning the new store and the generated id (this.lastID). -/
def insertArtwork (st : Store) (title description : Option String)
    (filename : String) (now : Nat) : Store × Nat :=
  ({ rows := st.rows ++ [⟨st.nextId, title, description, filename, now⟩],
     nextId := st.nextId + 1 }, st.nextId)

/-- The cloud-variant POST /api/upload handler body (after the auth gate
and multer).  The s3put parameter is the outcome of the s3.upload call;
uuid and now are the injected token and clock reading. -/
def uploadHandler (st : Store) (title description : Option String)
    (file : Option UploadFile) (uuid : String)
    (s3put : Except String Unit) (now : Nat) : Response × Store :=
  match file with
  | none => (⟨400, Body.error "Image file is required."⟩, st)
  | some f =>
    let fileKey := mkFileKey uuid f.originalname
    match s3put with
    | Except.error e => (⟨500, Body.error e⟩, st)
    | Except.ok _ =>
      let ins := insertArtwork st title description fileKey now
      (⟨200, Body.okId ins.2⟩, ins.1)

/-- The local-variant POST /api/upload handler body.  Multer diskStorage
has already saved the file under mkUniqueName before the handler runs;
savedFilename is `req.file.filename` (none when no file part was sent). -/
def uploadHandlerLocal (st : Store) (title description : Option String)
    (savedFilename : Option String) (now : Nat) : Response × Store :=
  match savedFilename with
  | none => (⟨400, Body.error "Image file is required."⟩, st)
  | some fname =>
    let ins := insertArtwork st title description fname now
    (⟨200, Body.okId ins.2⟩, ins.1)

/-- Decimal digit value of a character, if it is a digit. -/
def charDigit? (c : Char) : Option Nat :=
  if c.isDigit then some (c.toNat - 48) else none

/-- Accumulate a decimal value over characters, failing on the first
non-digit. -/
def digitsVal : List Char → Nat → Option Nat
  | [], acc => some acc
  | c :: cs, acc =>
    match charDigit? c with
    | none => none
    | some d => digitsVal cs (acc * 10 + d)

/-- Parse a nonempty all-digit string to a natural number. -/
def strToNat? (s : String) : Option Nat :=
  match s.data with
  | [] => none
  | c :: cs => digitsVal (c :: cs) 0

/-- SQLite comparison of the bound id string (req.params.id, unparsed)
against the INTEGER id column: the text is coerced to a number by column
affinity, so it matches exactly when it parses to the id value. -/
def idMatches (idStr : String) (id : Nat) : Bool :=
  strToNat? idStr == some id

/-- Lookup, `SELECT filename FROM artwork WHERE id = ?` via db.get: the first
row matching the id, if any. -/
def lookupArtwork (st : Store) (idStr : String) : Option Row :=
  st.rows.find? (fun r => idMatches idStr r.id)

/-- Row deletion, `DELETE FROM artwork WHERE id = ?`: keep exactly the rows whose id
does not match. -/
def deleteRows (st : Store) (idStr : String) : Store :=
  { st with rows := st.rows.filter (fun r => !(idMatches idStr r.id)) }

/-- Result of a DELETE /api/artworks/:id request: the response, the
store afterwards, and whether the object-store delete was invoked. -/
structure DeleteOutcome where
  resp : Response
  store : Store
  blobDeleteAttempted : Bool
  deriving DecidableEq, Repr

/-- The DELETE /api/artworks/:id handler body (both variants share this
shape): look the id up; not found answers 404 without touching the blob
store; otherwise the blob delete is attempted, its outcome s3del only
logged, and the row deletion and the 200 response proceed regardless. -/
def deleteHandler (st : Store) (idStr : String)
    (s3del : Except String Unit) : DeleteOutcome :=
  match lookupArtwork st idStr with
  | none => ⟨⟨404, Body.error "Artwork not found."⟩, st, false⟩
  | some _row =>
    match s3del with
    | Except.error _e => ⟨⟨200, Body.ok⟩, deleteRows st idStr, true⟩
    | Except.ok _ => ⟨⟨200, Body.ok⟩, deleteRows st idStr, true⟩

/-- Insertion step of the descending sort that models
`ORDER BY uploaded_at DESC`. -/
def insertDesc (r : Row) : List Row → List Row
  | [] => [r]
  | x :: xs =>
    if x.uploaded_at ≤ r.uploaded_at then r :: x :: xs
    else x :: insertDesc r xs

/-- Sort rows by uploaded_at descending (ties in some order; the SQL
leaves tie order unspecified). -/
def sortDesc : List Row → List Row
  | [] => []
  | x :: xs => insertDesc x (sortDesc xs)

/-- Listing query, `SELECT * FROM artwork ORDER BY uploaded_at DESC`. -/
def listAll (st : Store) : List Row := sortDesc st.rows

/-- The Object Store Adapter resolve of the spec for the cloud variant:
a pure, deterministic string built from the bucket/region configuration
and the key (virtual-hosted-style URL); stated from the spec wording to
compare against the GET handler below. -/
def resolve (cfg : S3Config) (key : String) : String :=
  "https://" ++ cfg.bucket ++ ".s3." ++ cfg.region ++ ".amazonaws.com/" ++ key

/-- The cloud-variant GET /api/artworks handler: reads all rows ordered
by uploaded_at descending and maps each to the projection with the
inline url string of index.js line 120. -/
def getArtworks (cfg : S3Config) (st : Store) : Response × Store :=
  let withUrls := (listAll st).map (fun row =>
    { id := row.id
      title := row.title
      description := row.description
      url := "https://" ++ cfg.bucket ++ ".s3." ++ cfg.region
               ++ ".amazonaws.com/" ++ row.filename
      uploaded_at := row.uploaded_at : ArtworkView })
  (⟨200, Body.listing withUrls⟩, st)

/-- The local-variant GET /api/artworks handler: res.json(rows), the raw
rows with no projection. -/
def getArtworksLocal (st : Store) : Response × Store :=
  (⟨200, Body.rawRows (listAll st)⟩, st)

/-- Modelled from the spec: the local-variant Object Store Adapter
resolve builds a local path-based URL under the statically served
uploads directory.  The repository code of the local variant never
constructs such a URL (its GET handler returns the raw rows), so this
definition follows the spec wording, for comparison. -/
def resolveLocal (key : String) : String :=
  "/uploads/" ++ key

/-- A matching id string is one that parses to the given id. -/
lemma idMatches_true_iff (idStr : String) (n : Nat) :
    idMatches idStr n = true ↔ strToNat? idStr = some n := by
  simp [idMatches]

/-- Deleting by an id that is present removes exactly one row when the
id column holds pairwise distinct values. -/
lemma length_filter_not_match (idStr : String) (n : Nat)
    (hto : strToNat? idStr = some n) :
    ∀ (l : List Row), (l.map Row.id).Nodup → (∃ r ∈ l, r.id = n) →
      (l.filter (fun r => !(idMatches idStr r.id))).length + 1 = l.length := by
  intro l
  induction l with
  | nil =>
    intro _ hmem
    obtain ⟨r, hr, _⟩ := hmem
    cases hr
  | cons a l ih =>
    intro hnd hmem
    rw [List.map_cons, List.nodup_cons] at hnd
    obtain ⟨ha, hnd2⟩ := hnd
    by_cases hid : a.id = n
    · have hfa : idMatches idStr a.id = true := by
        rw [idMatches_true_iff, hid]; exact hto
      have hl : ∀ r ∈ l, idMatches idStr r.id = false := by
        intro r hr
        rcases hb : idMatches idStr r.id with _ | _
        · rfl
        · exfalso
          have hrn : strToNat? idStr = some r.id := (idMatches_true_iff _ _).mp hb
          have : r.id = n := by
            have := hto ▸ hrn
            exact (Option.some.injEq _ _ ▸ this).symm
          exact ha (hid ▸ this ▸ List.mem_map_of_mem Row.id hr)
      have hrest : l.filter (fun r => !(idMatches idStr r.id)) = l :=
        List.filter_eq_self.mpr (by intro r hr; simp [hl r hr])
      rw [List.filter_cons, if_neg (by simp [hfa]), hrest]
      simp
    · have hfa : idMatches idStr a.id = false := by
        rcases hb : idMatches idStr a.id with _ | _
        · rfl
        · exfalso
          have hrn : strToNat? idStr = some a.id := (idMatches_true_iff _ _).mp hb
          have : a.id = n := by
            have := hto ▸ hrn
            exact (Option.some.injEq _ _ ▸ this).symm
          exact hid this
      have hmem2 : ∃ r ∈ l, r.id = n := by
        obtain ⟨r, hr, hrn⟩ := hmem
        rcases List.mem_cons.mp hr with h1 | h2
        · exact absurd (h1 ▸ hrn) hid
        · exact ⟨r, h2, hrn⟩
      rw [List.filter_cons, if_pos (by simp [hfa])]
      have := ih hnd2 hmem2
      simp only [List.length_cons]
      omega

/-- Inserting a row whose timestamp is below everything in the list
lands at the end of the descending order. -/
lemma insertDesc_all_lt (r : Row) :
    ∀ (xs : List Row), (∀ x ∈ xs, r.uploaded_at < x.uploaded_at) →
      insertDesc r xs = xs ++ [r] := by
  intro xs
  induction xs with
  | nil => intro _; rfl
  | cons x xs ih =>
    intro h
    have hx := h x (List.mem_cons_self x xs)
    rw [insertDesc, if_neg (by omega),
      ih (fun y hy => h y (List.mem_cons_of_mem x hy))]
    rfl

/-- A list whose timestamps strictly increase sorts, descending, to its
reverse. -/
lemma sortDesc_of_increasing :
    ∀ (l : List Row),
      l.Pairwise (fun a b => a.uploaded_at < b.uploaded_at) →
      sortDesc l = l.reverse := by
  intro l
  induction l with
  | nil => intro _; rfl
  | cons a l ih =>
    intro hp
    rw [List.pairwise_cons] at hp
    obtain ⟨ha, hp2⟩ := hp
    rw [sortDesc, ih hp2,
      insertDesc_all_lt a l.reverse
        (fun x hx => ha x (List.mem_reverse.mp hx)),
      List.reverse_cons]

/-- C2: when a file is present and the object-store put fails, the
upload coordinator answers 500 with the underlying message and the
record store is left unchanged (no metadata row is inserted). -/
theorem upload_put_failure_no_insert (st : Store)
    (title description : Option String) (f : UploadFile) (uuid : String)
    (e : String) (now : Nat) :
    uploadHandler st title description (some f) uuid (Except.error e) now
      = (⟨500, Body.error e⟩, st) := rfl

/-- C3: with a configured token, the Access Gate authorizes a mutating
request exactly when the bypass flag is active (NODE_ENV is not
"production") or the Authorization header equals the Bearer string; and
the gate either runs the handler (when authorized) or answers 403
with body error "Unauthorized", leaving the store untouched. -/
theorem accessGate_authorizes_iff (env : Env) (tok : String)
    (hdr : Option String) (st : Store)
    (handler : Store → Response × Store)
    (htok : env.auth_token = some tok) :
    (checkAuth env hdr = true ↔
      (env.node_env ≠ some "production" ∨
        hdr = some ("Bearer " ++ tok))) ∧
    ((checkAuth env hdr = true ∧ gate env hdr st handler = handler st) ∨
     (checkAuth env hdr = false ∧
       gate env hdr st handler = (⟨403, Body.error "Unauthorized"⟩, st))) := by
  constructor
  · simp only [checkAuth, htok, envStr]
    by_cases h : env.node_env = some "production"
    · simp [h]
    · simp [h]
  · rcases hb : checkAuth env hdr with _ | _
    · exact Or.inr ⟨rfl, by simp [gate, hb]⟩
    · exact Or.inl ⟨rfl, by simp [gate, hb]⟩

/-- Witness for C3 at a concrete production environment with a
configured token and a matching header. -/
theorem accessGate_authorizes_iff_witness :
    (checkAuth ⟨some "production", some "secret"⟩ (some "Bearer secret") = true ↔
      ((⟨some "production", some "secret"⟩ : Env).node_env ≠ some "production" ∨
        (some "Bearer secret" : Option String) = some ("Bearer " ++ "secret"))) ∧
    ((checkAuth ⟨some "production", some "secret"⟩ (some "Bearer secret") = true ∧
        gate ⟨some "production", some "secret"⟩ (some "Bearer secret") emptyStore
          (fun s => (⟨200, Body.ok⟩, s))
          = (fun s => ((⟨200, Body.ok⟩ : Response), s)) emptyStore) ∨
     (checkAuth ⟨some "production", some "secret"⟩ (some "Bearer secret") = false ∧
        gate ⟨some "production", some "secret"⟩ (some "Bearer secret") emptyStore
          (fun s => (⟨200, Body.ok⟩, s))
          = (⟨403, Body.error "Unauthorized"⟩, emptyStore))) :=
  accessGate_authorizes_iff ⟨some "production", some "secret"⟩ "secret"
    (some "Bearer secret") emptyStore (fun s => (⟨200, Body.ok⟩, s)) rfl

/-- C6: an upload request with no file part answers 400 and leaves the
record store unchanged, in both variants. -/
theorem upload_no_file_400 (st : Store) (title description : Option String)
    (uuid : String) (s3put : Except String Unit) (now : Nat) :
    uploadHandler st title description none uuid s3put now
        = (⟨400, Body.error "Image file is required."⟩, st) ∧
    uploadHandlerLocal st title description none now
        = (⟨400, Body.error "Image file is required."⟩, st) :=
  ⟨rfl, rfl⟩

/-- C7: a delete request whose id matches no record answers 404, never
invokes the object-store delete, and leaves the store unchanged. -/
theorem delete_notfound_404 (st : Store) (idStr : String)
    (s3del : Except String Unit)
    (h : lookupArtwork st idStr = none) :
    deleteHandler st idStr s3del
      = ⟨⟨404, Body.error "Artwork not found."⟩, st, false⟩ := by
  simp [deleteHandler, h]

/-- Witness for C7 at a concrete store and an id that is absent. -/
theorem delete_notfound_404_witness :
    deleteHandler ⟨[⟨1, some "Cat", some "d", "k-cat.png", 5⟩], 2⟩ "2"
        (Except.ok ())
      = ⟨⟨404, Body.error "Artwork not found."⟩,
         ⟨[⟨1, some "Cat", some "d", "k-cat.png", 5⟩], 2⟩, false⟩ :=
  delete_notfound_404 ⟨[⟨1, some "Cat", some "d", "k-cat.png", 5⟩], 2⟩ "2"
    (Except.ok ()) (by decide)

/-- C9: with the bypass inactive (NODE_ENV set to "production") and no
AUTH_TOKEN configured, the header "Bearer undefined" passes the gate,
because the expected token is built by string interpolation of the
unset environment variable. -/
theorem auth_bearer_undefined_passes :
    checkAuth ⟨some "production", none⟩ (some "Bearer undefined") = true := by
  decide

/-- C10: any delete request whose id string matches no row, numeric or
not, gets the same 404 not-found answer with the store untouched and no
object-store delete; the id reaches the store lookup unparsed. -/
theorem delete_unmatched_id_404 (st : Store) (idStr : String)
    (s3del : Except String Unit)
    (h : ∀ r ∈ st.rows, idMatches idStr r.id = false) :
    deleteHandler st idStr s3del
        = ⟨⟨404, Body.error "Artwork not found."⟩, st, false⟩ ∧
    lookupArtwork st idStr = none := by
  have hnone : lookupArtwork st idStr = none := by
    unfold lookupArtwork
    rw [List.find?_eq_none]
    intro r hr
    simp [h r hr]
  exact ⟨by simp [deleteHandler, hnone], hnone⟩

/-- Witness for C10: the non-numeric id "abc" on a nonempty store. -/
theorem delete_unmatched_id_404_witness :
    (deleteHandler ⟨[⟨1, some "Cat", some "d", "k-cat.png", 5⟩], 2⟩ "abc"
        (Except.ok ())
      = ⟨⟨404, Body.error "Artwork not found."⟩,
         ⟨[⟨1, some "Cat", some "d", "k-cat.png", 5⟩], 2⟩, false⟩) ∧
    lookupArtwork ⟨[⟨1, some "Cat", some "d", "k-cat.png", 5⟩], 2⟩ "abc" = none :=
  delete_unmatched_id_404 ⟨[⟨1, some "Cat", some "d", "k-cat.png", 5⟩], 2⟩
    "abc" (Except.ok ()) (by decide)

/-- C1: once the id lookup succeeds, the delete coordinator answers 200
with body success and removes exactly one row, whatever the outcome of
the object-store delete; ids are pairwise distinct (the id column is the
primary key). -/
theorem delete_found_always_removes_row (st : Store) (idStr : String)
    (s3del : Except String Unit) (row : Row)
    (hnd : (st.rows.map Row.id).Nodup)
    (hlk : lookupArtwork st idStr = some row) :
    (deleteHandler st idStr s3del).resp = ⟨200, Body.ok⟩ ∧
    (deleteHandler st idStr s3del).store.rows.length + 1 = st.rows.length := by
  have hfind : st.rows.find? (fun r => idMatches idStr r.id) = some row := hlk
  have hmemrow : row ∈ st.rows := List.mem_of_find?_eq_some hfind
  have hp0 := List.find?_some hfind
  have hp : idMatches idStr row.id = true := hp0
  have hto : strToNat? idStr = some row.id := (idMatches_true_iff _ _).mp hp
  have hlen := length_filter_not_match idStr row.id hto st.rows hnd
    ⟨row, hmemrow, rfl⟩
  unfold deleteHandler
  rw [hlk]
  cases s3del with
  | error e => exact ⟨rfl, hlen⟩
  | ok u => exact ⟨rfl, hlen⟩

/-- Witness for C1: a one-row store, the id "1" and a failing
object-store delete; the row still goes away and the answer is 200. -/
theorem delete_found_always_removes_row_witness :
    (deleteHandler ⟨[⟨1, some "Cat", some "d", "k-cat.png", 5⟩], 2⟩ "1"
        (Except.error "S3 down")).resp = ⟨200, Body.ok⟩ ∧
    (deleteHandler ⟨[⟨1, some "Cat", some "d", "k-cat.png", 5⟩], 2⟩ "1"
        (Except.error "S3 down")).store.rows.length + 1
      = (⟨[⟨1, some "Cat", some "d", "k-cat.png", 5⟩], 2⟩ : Store).rows.length :=
  delete_found_always_removes_row
    ⟨[⟨1, some "Cat", some "d", "k-cat.png", 5⟩], 2⟩ "1"
    (Except.error "S3 down") ⟨1, some "Cat", some "d", "k-cat.png", 5⟩
    (by decide) (by decide)

/-- C4 counterexample: in the local-disk variant the object key is the
timestamp joined to the filename, so two uploads sharing filename and
timestamp receive the same key, refuting the claimed uniqueness at this
concrete timestamp and filename. -/
theorem local_key_same_timestamp_collision :
    ¬ (mkUniqueName 1733000000000 "cat.png"
        ≠ mkUniqueName 1733000000000 "cat.png") :=
  fun h => h rfl

/-- C4 amended: in the cloud variant the key is the uuid token joined to
the original filename, so the original filename (hence its extension) is
a suffix of the key, and distinct tokens of equal length (uuid v4 tokens
all have length 36) give distinct keys even for equal filenames and
timestamps. -/
theorem cloud_key_unique_and_preserves_name
    (t1 t2 f1 f2 t f : String)
    (hlen : t1.length = t2.length) (hne : t1 ≠ t2) :
    mkFileKey t1 f1 ≠ mkFileKey t2 f2 ∧
    List.IsSuffix f.data (mkFileKey t f).data := by
  constructor
  · intro contra
    have hd : (t1.data ++ ['-']) ++ f1.data = (t2.data ++ ['-']) ++ f2.data := by
      have h0 := congrArg String.data contra
      simpa [mkFileKey, String.data_append] using h0
    have hlen2 : (t1.data ++ ['-']).length = (t2.data ++ ['-']).length := by
      have : t1.data.length = t2.data.length := hlen
      simp [this]
    have h1 : t1.data ++ ['-'] = t2.data ++ ['-'] :=
      (List.append_inj hd hlen2).1
    have h2 : t1.data = t2.data := List.append_cancel_right h1
    exact hne (String.ext h2)
  · exact ⟨(t ++ "-").data, by simp [mkFileKey, String.data_append]⟩

/-- Witness for C4 amended: two distinct equal-length tokens yield
distinct keys, and a concrete key keeps its filename as a suffix. -/
theorem cloud_key_unique_and_preserves_name_witness :
    mkFileKey "aaaa" "x.png" ≠ mkFileKey "bbbb" "y.png" ∧
    List.IsSuffix ("cat.png".data) (mkFileKey "tok0" "cat.png").data :=
  cloud_key_unique_and_preserves_name "aaaa" "bbbb" "x.png" "y.png"
    "tok0" "cat.png" rfl (by decide)

/-- C5 counterexample: at a concrete one-row store the local-disk
variant answers with the raw row (filename field, no url), not with the
projection whose url is the resolved object key. -/
theorem local_listing_not_projection :
    (getArtworksLocal ⟨[⟨1, some "Cat", none, "k-cat.png", 5⟩], 2⟩).1.body
        = Body.rawRows [⟨1, some "Cat", none, "k-cat.png", 5⟩] ∧
    (getArtworksLocal ⟨[⟨1, some "Cat", none, "k-cat.png", 5⟩], 2⟩).1.body
        ≠ Body.listing [⟨1, some "Cat", none, resolveLocal "k-cat.png", 5⟩] := by
  constructor
  · rfl
  · intro h
    cases h

/-- C5 amended: the cloud variant lists exactly the projection with url
equal to resolve applied to the object key; the local variant returns
the raw ordered rows with no projection. -/
theorem listing_projection_resolve (cfg : S3Config) (st : Store) :
    getArtworks cfg st
      = (⟨200, Body.listing ((listAll st).map (fun r =>
          ⟨r.id, r.title, r.description, resolve cfg r.filename,
            r.uploaded_at⟩))⟩, st) ∧
    getArtworksLocal st = (⟨200, Body.rawRows (listAll st)⟩, st) :=
  ⟨rfl, rfl⟩

/-- C8: for a store whose rows carry strictly increasing timestamps in
insertion order (the clock moves forward and the timestamps are pairwise
distinct), listing leaves the store unchanged, repeating it returns the
same response, and the response lists exactly the rows in reverse
insertion order. -/
theorem listing_idempotent_desc (cfg : S3Config) (st : Store)
    (hinc : st.rows.Pairwise (fun a b => a.uploaded_at < b.uploaded_at)) :
    (getArtworks cfg st).2 = st ∧
    (getArtworks cfg ((getArtworks cfg st).2)).1 = (getArtworks cfg st).1 ∧
    listAll st = st.rows.reverse ∧
    (getArtworks cfg st).1.body
      = Body.listing (st.rows.reverse.map (fun r =>
          ⟨r.id, r.title, r.description, resolve cfg r.filename,
            r.uploaded_at⟩)) ∧
    (listAll st).length = st.rows.length := by
  have hs : listAll st = st.rows.reverse := sortDesc_of_increasing st.rows hinc
  refine ⟨rfl, rfl, hs, ?_, ?_⟩
  · show Body.listing ((listAll st).map _) = _
    rw [hs]
    simp only [resolve]
  · rw [hs, List.length_reverse]

/-- Witness for C8: three rows inserted with increasing timestamps list
in reverse insertion order. -/
theorem listing_idempotent_desc_witness :
    (getArtworks ⟨"bkt", "eu-1"⟩ ⟨[⟨1, none, none, "a", 1⟩,
        ⟨2, none, none, "b", 2⟩, ⟨3, none, none, "c", 3⟩], 4⟩).2
      = ⟨[⟨1, none, none, "a", 1⟩, ⟨2, none, none, "b", 2⟩,
          ⟨3, none, none, "c", 3⟩], 4⟩ ∧
    (getArtworks ⟨"bkt", "eu-1"⟩ ((getArtworks ⟨"bkt", "eu-1"⟩
        ⟨[⟨1, none, none, "a", 1⟩, ⟨2, none, none, "b", 2⟩,
          ⟨3, none, none, "c", 3⟩], 4⟩).2)).1
      = (getArtworks ⟨"bkt", "eu-1"⟩ ⟨[⟨1, none, none, "a", 1⟩,
          ⟨2, none, none, "b", 2⟩, ⟨3, none, none, "c", 3⟩], 4⟩).1 ∧
    listAll ⟨[⟨1, none, none, "a", 1⟩, ⟨2, none, none, "b", 2⟩,
        ⟨3, none, none, "c", 3⟩], 4⟩
      = (⟨[⟨1, none, none, "a", 1⟩, ⟨2, none, none, "b", 2⟩,
          ⟨3, none, none, "c", 3⟩], 4⟩ : Store).rows.reverse ∧
    (getArtworks ⟨"bkt", "eu-1"⟩ ⟨[⟨1, none, none, "a", 1⟩,
        ⟨2, none, none, "b", 2⟩, ⟨3, none, none, "c", 3⟩], 4⟩).1.body
      = Body.listing ((⟨[⟨1, none, none, "a", 1⟩, ⟨2, none, none, "b", 2⟩,
          ⟨3, none, none, "c", 3⟩], 4⟩ : Store).rows.reverse.map (fun r =>
            ⟨r.id, r.title, r.description, resolve ⟨"bkt", "eu-1"⟩ r.filename,
              r.uploaded_at⟩)) ∧
    (listAll ⟨[⟨1, none, none, "a", 1⟩, ⟨2, none, none, "b", 2⟩,
        ⟨3, none, none, "c", 3⟩], 4⟩).length
      = (⟨[⟨1, none, none, "a", 1⟩, ⟨2, none, none, "b", 2⟩,
          ⟨3, none, none, "c", 3⟩], 4⟩ : Store).rows.length :=
  listing_idempotent_desc ⟨"bkt", "eu-1"⟩
    ⟨[⟨1, none, none, "a", 1⟩, ⟨2, none, none, "b", 2⟩,
      ⟨3, none, none, "c", 3⟩], 4⟩ (by decide)

end ArtShowcase
